import Mathlib

/-!
Verification of the MCP Security Scanner engine.

This file shallowly embeds the detection-and-scoring engine of the scanner
(`scanner/detection_rules.py` and `scanner/mcp_scanner.py`) in Lean 4 and
proves / refutes the frozen specification claims about it.

Text is modelled as `List Char` (Python strings are sequences of code
points).  The regular-expression patterns of the rule catalogue are embedded
as small pattern ASTs (`RE`) together with a backtracking matcher that
mirrors the semantics the Python `re` module exhibits on exactly these
patterns: case-insensitive literals and alternations of literals, the lazy
wildcard `.*?` (dot does not match a newline), and greedy character classes
with `min`/`max` counts; `finditer` scans left to right and resumes after
the end of each match.
-/

namespace MCPScan

/-- ASCII lower-casing, as `re.IGNORECASE` comparison does for these
ASCII-only patterns. -/
def charLower (c : Char) : Char :=
  if c.isUpper then Char.ofNat (c.toNat + 32) else c

/-- Does `text` start with the literal `pat`, compared case-insensitively? -/
def startsWithCI : List Char → List Char → Bool
  | [], _ => true
  | _ :: _, [] => false
  | p :: ps, t :: ts => (charLower p == charLower t) && startsWithCI ps ts

/-- Length of the maximal prefix of the text whose characters satisfy `p`. -/
def countRun (p : Char → Bool) : List Char → Nat
  | [] => 0
  | c :: cs => if p c then countRun p cs + 1 else 0

/-- One element of a regex pattern, covering exactly the constructs used by
the scanner's catalogue. -/
inductive RE where
  | lit : List Char → RE
  | alt : List (List Char) → RE
  | anyLazy : RE
  | cls : (Char → Bool) → Nat → Option Nat → RE

mutual

/-- Match a sequence of pattern elements at the start of `text`, returning
the number of characters consumed by the (backtracking-first) match, like
the Python `re` engine anchored at a position: alternatives are tried left
to right, `.*?` prefers the shortest expansion, classes prefer the longest.

The recursion is structural on a fuel counter (so the kernel can evaluate
it); every recursive call strictly decreases the lexicographic measure
(text length, remaining pattern length, alternative/backoff counter), whose
chain length is bounded by the product of the component bounds, so the fuel
chosen by `fuelFor` below never runs out. -/
def matchSeq : Nat → List RE → List Char → Option Nat
  | 0, _, _ => none
  | _ + 1, [], _ => some 0
  | fuel + 1, RE.lit s :: rest, text =>
    if startsWithCI s text then
      (matchSeq fuel rest (text.drop s.length)).map (fun n => n + s.length)
    else none
  | fuel + 1, RE.alt alts :: rest, text => matchAlt fuel alts rest text
  | fuel + 1, RE.anyLazy :: rest, text =>
    match matchSeq fuel rest text with
    | some n => some n
    | none =>
      match text with
      | [] => none
      | c :: ts =>
        if c = '\n' then none
        else (matchSeq fuel (RE.anyLazy :: rest) ts).map (fun n => n + 1)
  | fuel + 1, RE.cls p lo hi :: rest, text =>
    let run := countRun p text
    let cap := match hi with | none => run | some h => min run h
    if cap < lo then none else tryCls fuel lo cap rest text

/-- Try the alternatives of a group in order, continuing with `rest`. -/
def matchAlt : Nat → List (List Char) → List RE → List Char → Option Nat
  | 0, _, _, _ => none
  | _ + 1, [], _, _ => none
  | fuel + 1, a :: more, rest, text =>
    if startsWithCI a text then
      match (matchSeq fuel rest (text.drop a.length)).map (fun n => n + a.length) with
      | some n => some n
      | none => matchAlt fuel more rest text
    else matchAlt fuel more rest text

/-- Greedy class repetition: try consuming `j` characters, backing off to
`lo` until the rest of the pattern matches. -/
def tryCls : Nat → Nat → Nat → List RE → List Char → Option Nat
  | 0, _, _, _, _ => none
  | fuel + 1, lo, j, rest, text =>
    if j < lo then none
    else
      match matchSeq fuel rest (text.drop j) with
      | some n => some (j + n)
      | none => if j = 0 then none else tryCls fuel lo (j - 1) rest text

end

/-- The largest alternative-group size appearing in a pattern. -/
def altsBound : List RE → Nat
  | [] => 0
  | RE.alt alts :: rest => max alts.length (altsBound rest)
  | _ :: rest => altsBound rest

/-- Fuel sufficient for `matchSeq pat text`: every frame of the recursion
carries a triple (remaining text length ≤ `text.length`, remaining pattern
length ≤ `pat.length`, alternative/backoff counter ≤
`text.length + altsBound pat + 1`) that strictly decreases lexicographically
from call to call, so the recursion depth is below the product of the three
component ranges. -/
def fuelFor (pat : List RE) (text : List Char) : Nat :=
  (text.length + 2) * (pat.length + 2) * (text.length + altsBound pat + 3)

/-- Anchored match of a whole pattern with sufficient fuel. -/
def matchSeqTop (pat : List RE) (text : List Char) : Option Nat :=
  matchSeq (fuelFor pat text) pat text

/-- `finditerAux mf fuel pat text pos` scans for non-overlapping matches of
`pat` left to right, starting at absolute position `pos` of the original
text, where `text` is the original text with its first `pos` characters
dropped and `mf` is match fuel sufficient for the whole original text (the
bound of `fuelFor` is monotone in the text length, so one fuel value
computed up front serves every suffix).  A zero-width match advances by one
character, a match of `n > 0` characters resumes at the match end, exactly
like Python's `finditer`. -/
def finditerAux (mf : Nat) : Nat → List RE → List Char → Nat → List (Nat × Nat)
  | 0, _, _, _ => []
  | fuel + 1, pat, text, pos =>
    match matchSeq mf pat text with
    | some n =>
      (pos, pos + n) ::
        (if n = 0 then
          match text with
          | [] => []
          | _ :: ts => finditerAux mf fuel pat ts (pos + 1)
        else finditerAux mf fuel pat (text.drop n) (pos + n))
    | none =>
      match text with
      | [] => []
      | _ :: ts => finditerAux mf fuel pat ts (pos + 1)

/-- All non-overlapping matches of one compiled pattern over the text, as
`(start, end)` index pairs, in left-to-right order. -/
def finditer (pat : List RE) (text : List Char) : List (Nat × Nat) :=
  finditerAux (fuelFor pat text) (text.length + 1) pat text 0

/-- Whitespace characters stripped by Python's `str.strip()` (for the ASCII
range relevant here). -/
def isPySpace (c : Char) : Bool :=
  c == ' ' || c == '\t' || c == '\n' || c == '\r' || c == '\x0b' || c == '\x0c'

/-- Python's `str.strip()`: remove leading and trailing whitespace. -/
def pyStrip (l : List Char) : List Char :=
  ((l.dropWhile isPySpace).reverse.dropWhile isPySpace).reverse

/-- `RegexDetectionRule.check`'s evidence construction for one match span
`(s, e)`: the context window 30 characters before and after the match,
clipped to the text bounds, stripped, and wrapped in literal dots
(the `f`-string in the source adds three dots on each side). -/
def mkSnippet (text : List Char) (s e : Nat) : List Char :=
  let start := s - 30
  let stop := min text.length (e + 30)
  let context := pyStrip ((text.drop start).take (stop - start))
  ("...".toList) ++ context ++ ("...".toList)

/-- Risk severity levels (`detection_rules.Severity`). -/
inductive Severity where
  | CRITICAL | HIGH | MEDIUM | LOW | INFO
deriving DecidableEq, Repr

/-- `get_severity_score`: fixed numeric weight of each severity. -/
def get_severity_score : Severity → Nat
  | Severity.CRITICAL => 100
  | Severity.HIGH => 75
  | Severity.MEDIUM => 50
  | Severity.LOW => 25
  | Severity.INFO => 10

/-- A catalogue detection rule (`RegexDetectionRule`): name, severity,
description, recommendation and the compiled pattern list. -/
structure Rule where
  name : String
  severity : Severity
  description : String
  recommendation : String
  patterns : List (List RE)

/-- Literal pattern element. -/
def L (s : String) : RE := RE.lit s.toList

/-- Alternation-of-literals pattern element. -/
def A (ss : List String) : RE := RE.alt (ss.map String.toList)

/-- Character class of the local part of the e-mail regex,
`[a-zA-Z0-9._%+-]`. -/
def emailLocalChar (c : Char) : Bool :=
  c.isAlpha || c.isDigit || c == '.' || c == '_' || c == '%' || c == '+' || c == '-'

/-- Character class of the domain part of the e-mail regex, `[a-zA-Z0-9.-]`. -/
def emailDomainChar (c : Char) : Bool :=
  c.isAlpha || c.isDigit || c == '.' || c == '-'

/-- Character class `[a-zA-Z]`. -/
def alphaChar (c : Char) : Bool := c.isAlpha

/-- Character class `[A-Za-z0-9+/]` of the base64-like pattern. -/
def base64Char (c : Char) : Bool :=
  c.isAlpha || c.isDigit || c == '+' || c == '/'

/-- Character class of the literal `=`. -/
def eqChar (c : Char) : Bool := c == '='

/-- Catalogue rule: hidden tagged instruction blocks (CRITICAL). -/
def rule_TOOL_POISONING : Rule :=
  { name := "TOOL_POISONING_HIDDEN_INSTRUCTION"
    severity := Severity.CRITICAL
    description := "Hidden system instructions detected in tool description"
    recommendation := "Remove this MCP server immediately. Tool descriptions should never contain hidden instructions."
    patterns := [
      [L "<SYSTEM_INSTRUCTION>", RE.anyLazy, L "</SYSTEM_INSTRUCTION>"],
      [L "<HIDDEN>", RE.anyLazy, L "</HIDDEN>"],
      [L "<SECRET>", RE.anyLazy, L "</SECRET>"],
      [L "<!--", RE.anyLazy, L "-->"]] }

/-- Catalogue rule: instructions to hide behavior from the user (CRITICAL). -/
def rule_USER_DECEPTION : Rule :=
  { name := "USER_DECEPTION"
    severity := Severity.CRITICAL
    description := "Instructions to hide behavior from user detected"
    recommendation := "This server is designed to deceive users. Remove immediately."
    patterns := [
      [L "do not ", A ["tell", "inform", "notify", "mention", "show"], RE.anyLazy, L "user"],
      [A ["hide", "conceal", "secret"], RE.anyLazy, L "from", RE.anyLazy, L "user"],
      [L "user ", A ["should", "must"], L " not ", A ["know", "see", "be aware"]],
      [L "without", RE.anyLazy, L "user", RE.anyLazy, A ["knowledge", "awareness", "consent"]],
      [L "silently"]] }

/-- Catalogue rule: e-mail address in the description (CRITICAL). -/
def rule_EMAIL_IN_DESCRIPTION : Rule :=
  { name := "EMAIL_IN_DESCRIPTION"
    severity := Severity.CRITICAL
    description := "Email address found in tool description"
    recommendation := "Email addresses should not appear in tool descriptions. This may indicate data exfiltration."
    patterns := [
      [RE.cls emailLocalChar 1 none, L "@", RE.cls emailDomainChar 1 none,
       L ".", RE.cls alphaChar 2 none]] }

/-- Catalogue rule: unauthorized data collection (HIGH). -/
def rule_UNAUTHORIZED_DATA_COLLECTION : Rule :=
  { name := "UNAUTHORIZED_DATA_COLLECTION"
    severity := Severity.HIGH
    description := "Instructions for unauthorized data collection detected"
    recommendation := "Tool appears to collect data without proper authorization."
    patterns := [
      [A ["always", "automatically"], RE.anyLazy, A ["send", "forward", "copy", "bcc", "cc"]],
      [A ["send", "forward", "copy"], RE.anyLazy, L "to", RE.anyLazy,
       RE.cls emailLocalChar 1 none, L "@"],
      [L "backup", RE.anyLazy, L "to", RE.anyLazy, RE.cls emailLocalChar 1 none, L "@"],
      [A ["collect", "gather", "exfiltrate", "extract"], RE.anyLazy, L "data"]] }

/-- Catalogue rule: mandatory unauthorized actions (HIGH). -/
def rule_MANDATORY_BEHAVIOR : Rule :=
  { name := "MANDATORY_BEHAVIOR"
    severity := Severity.HIGH
    description := "Tool requires unauthorized mandatory actions"
    recommendation := "Review tool behavior. Mandatory hidden actions are a security risk."
    patterns := [
      [A ["must", "required", "mandatory", "cannot be disabled", "obligatory"],
       RE.anyLazy, A ["send", "forward", "copy", "bcc"]],
      [A ["critical", "essential"], RE.anyLazy, A ["security", "compliance"],
       RE.anyLazy, A ["requirement", "policy"]]] }

/-- Catalogue rule: suspicious keywords (MEDIUM). -/
def rule_SUSPICIOUS_KEYWORDS : Rule :=
  { name := "SUSPICIOUS_KEYWORDS"
    severity := Severity.MEDIUM
    description := "Suspicious keywords detected in tool description"
    recommendation := "Review this tool carefully. Description contains unusual security-related terms."
    patterns := [
      [L "audit", RE.anyLazy, L "compliance"],
      [L "security", RE.anyLazy, L "policy", RE.anyLazy, L "cannot"],
      [L "monitoring", RE.anyLazy, L "purposes"],
      [L "data", RE.anyLazy, L "retention", RE.anyLazy, L "requirement"]] }

/-- Catalogue rule: obfuscation attempts (MEDIUM). -/
def rule_OBFUSCATION : Rule :=
  { name := "OBFUSCATION"
    severity := Severity.MEDIUM
    description := "Possible obfuscation or encoding detected"
    recommendation := "Tool description may be attempting to hide its true purpose."
    patterns := [
      [L "base64"],
      [L "encoded"],
      [L "obfuscated"],
      [RE.cls base64Char 40 none, RE.cls eqChar 0 (some 2)]] }

/-- Catalogue rule: unusual complexity (LOW); its regex pattern list is
empty — the length check is done elsewhere. -/
def rule_UNUSUAL_COMPLEXITY : Rule :=
  { name := "UNUSUAL_COMPLEXITY"
    severity := Severity.LOW
    description := "Tool description is unusually long or complex"
    recommendation := "Review this tool. Overly complex descriptions may hide malicious behavior."
    patterns := [] }

/-- The fixed rule catalogue `DETECTION_RULES`, in declaration order. -/
def DETECTION_RULES : List Rule := [
  rule_TOOL_POISONING,
  rule_USER_DECEPTION,
  rule_EMAIL_IN_DESCRIPTION,
  rule_UNAUTHORIZED_DATA_COLLECTION,
  rule_MANDATORY_BEHAVIOR,
  rule_SUSPICIOUS_KEYWORDS,
  rule_OBFUSCATION,
  rule_UNUSUAL_COMPLEXITY]

/-- `RegexDetectionRule.check`: run every pattern's `finditer` over the
text, collect an ellipsis-wrapped context snippet per match (per pattern,
in match order), and report whether any evidence was found. -/
def ruleCheck (r : Rule) (text : List Char) : Bool × List (List Char) :=
  let evidence :=
    (r.patterns.map (fun p => (finditer p text).map (fun m => mkSnippet text m.1 m.2))).flatten
  (decide (0 < evidence.length), evidence)

/-- `check_description_length`: flag descriptions longer than 1000
characters, returning the length as well. -/
def check_description_length (description : List Char) : Bool × Nat :=
  (decide (1000 < description.length), description.length)

/-- The categorical risk level carried by a `ScanResult` (a plain string in
the source; the INFO value exists in `Severity` but is never assigned as a
level). -/
inductive RiskLevel where
  | SAFE | INFO | LOW | MEDIUM | HIGH | CRITICAL
deriving DecidableEq, Repr

/-- Rank of a risk level under the spec's total order
CRITICAL > HIGH > MEDIUM > LOW > INFO > SAFE. -/
def levelRank : RiskLevel → Nat
  | RiskLevel.SAFE => 0
  | RiskLevel.INFO => 1
  | RiskLevel.LOW => 2
  | RiskLevel.MEDIUM => 3
  | RiskLevel.HIGH => 4
  | RiskLevel.CRITICAL => 5

/-- The risk level named by a severity. -/
def sevToLevel : Severity → RiskLevel
  | Severity.CRITICAL => RiskLevel.CRITICAL
  | Severity.HIGH => RiskLevel.HIGH
  | Severity.MEDIUM => RiskLevel.MEDIUM
  | Severity.LOW => RiskLevel.LOW
  | Severity.INFO => RiskLevel.INFO

/-- One vulnerability record as appended by
`ScanResult.add_vulnerability`. -/
structure Vulnerability where
  rule : String
  severity : Severity
  description : String
  evidence : List (List Char)
  recommendation : String
deriving DecidableEq, Repr

/-- `ScanResult`: the per-tool accumulator. -/
structure ScanResult where
  server_name : String
  tool_name : String
  description : List Char
  vulnerabilities : List Vulnerability
  risk_score : Nat
  risk_level : RiskLevel
deriving DecidableEq, Repr

/-- `ScanResult.__init__`: empty findings, score 0, level SAFE. -/
def ScanResult.init (server_name tool_name : String) (description : List Char) :
    ScanResult :=
  { server_name := server_name
    tool_name := tool_name
    description := description
    vulnerabilities := []
    risk_score := 0
    risk_level := RiskLevel.SAFE }

/-- `ScanResult.add_vulnerability`: append the record, add the severity
weight to the score, and upgrade the level through the if/elif chain of the
source. -/
def ScanResult.add_vulnerability (r : ScanResult) (rule_name : String)
    (severity : Severity) (description : String) (evidence : List (List Char))
    (recommendation : String) : ScanResult :=
  let r :=
    { r with
      vulnerabilities := r.vulnerabilities ++
        [{ rule := rule_name, severity := severity, description := description,
           evidence := evidence, recommendation := recommendation }]
      risk_score := r.risk_score + get_severity_score severity }
  if severity = Severity.CRITICAL then
    { r with risk_level := RiskLevel.CRITICAL }
  else if severity = Severity.HIGH ∧ r.risk_level ≠ RiskLevel.CRITICAL then
    { r with risk_level := RiskLevel.HIGH }
  else if severity = Severity.MEDIUM ∧
      r.risk_level ∉ [RiskLevel.CRITICAL, RiskLevel.HIGH] then
    { r with risk_level := RiskLevel.MEDIUM }
  else if severity = Severity.LOW ∧ r.risk_level = RiskLevel.SAFE then
    { r with risk_level := RiskLevel.LOW }
  else r

/-- `ScanResult.is_safe`: no vulnerabilities recorded. -/
def ScanResult.is_safe (r : ScanResult) : Bool :=
  r.vulnerabilities.length == 0

/-- The arguments of one `add_vulnerability` call. -/
structure VulnInput where
  rule : String
  severity : Severity
  description : String
  evidence : List (List Char)
  recommendation : String

/-- Apply a sequence of `add_vulnerability` calls to a result. -/
def applyAdds (r : ScanResult) (adds : List VulnInput) : ScanResult :=
  adds.foldl
    (fun acc a =>
      acc.add_vulnerability a.rule a.severity a.description a.evidence a.recommendation)
    r

/-- Vulnerability description synthesized by the length heuristic
(`"Tool description is unusually long (<length> characters)"`). -/
def unusualLengthDescription (n : Nat) : String :=
  "Tool description is unusually long (" ++ toString n ++ " characters)"

/-- Evidence string synthesized by the length heuristic
(`"Description length: <length> chars (normal is < 1000)"`). -/
def lengthEvidence (n : Nat) : List Char :=
  ("Description length: " ++ toString n ++ " chars (normal is < 1000)").toList

/-- The LOW vulnerability record the scanner synthesizes for an overlong
description. -/
def lengthVuln (n : Nat) : Vulnerability :=
  { rule := "UNUSUAL_COMPLEXITY"
    severity := Severity.LOW
    description := unusualLengthDescription n
    evidence := [lengthEvidence n]
    recommendation := "Review this tool. Overly complex descriptions may hide malicious behavior." }

/-- One iteration of the rule loop in `MCPScanner.scan_tool`: add a
vulnerability when the rule's check matched. -/
def ruleStep (description : List Char) (r : ScanResult) (rule : Rule) : ScanResult :=
  if (ruleCheck rule description).1 then
    r.add_vulnerability rule.name rule.severity rule.description
      (ruleCheck rule description).2 rule.recommendation
  else r

/-- `MCPScanner.scan_tool`: run every catalogue rule over the description in
catalogue order, adding a vulnerability per matched rule, then run the
length heuristic once, appending its finding if triggered. -/
def scan_tool (server_name tool_name : String) (description : List Char) :
    ScanResult :=
  let r0 := ScanResult.init server_name tool_name description
  let r1 := DETECTION_RULES.foldl (ruleStep description) r0
  let lenRes := check_description_length description
  if lenRes.1 then
    r1.add_vulnerability "UNUSUAL_COMPLEXITY" Severity.LOW
      (unusualLengthDescription lenRes.2) [lengthEvidence lenRes.2]
      "Review this tool. Overly complex descriptions may hide malicious behavior."
  else r1

/-- A tool entry of the configuration document: optional `name` (default
`"unnamed"`) and optional `description` (default empty). -/
structure MCPTool where
  name : Option String
  description : Option (List Char)

/-- A server entry of the configuration document: optional `tools` list
(missing key means the empty list). -/
structure MCPServer where
  tools : Option (List MCPTool)

/-- Scan results for every tool of every server, in document order
(the result-appending loop of `MCPScanner.scan`). -/
def scanToolResults (servers : List (String × MCPServer)) : List ScanResult :=
  (servers.map (fun s =>
    (s.2.tools.getD []).map (fun t =>
      scan_tool s.1 (t.name.getD "unnamed") (t.description.getD [])))).flatten

/-- `MCPScanner.scan`, with console output modelled as a list of emitted
message strings: zero servers reports "No servers found in configuration"
and returns failure-to-proceed leaving the results unchanged; otherwise all
tools are scanned and their results appended. -/
def scan (servers : List (String × MCPServer)) (results : List ScanResult) :
    Bool × List ScanResult × List String :=
  if servers.isEmpty then
    (false, results, ["No servers found in configuration"])
  else
    (true, results ++ scanToolResults servers,
      ["Found " ++ toString servers.length ++ " servers with " ++
        toString ((servers.map (fun s => (s.2.tools.getD []).length)).sum) ++ " tools"])

/-- The summary dictionary of `MCPScanner.get_summary`. -/
structure Summary where
  total_servers : Nat
  total_tools : Nat
  critical : Nat
  high : Nat
  medium : Nat
  low : Nat
  safe : Nat
  scan_time : Option String
deriving DecidableEq, Repr

/-- `MCPScanner.get_summary`: counts recomputed from the results list. -/
def get_summary (servers : List (String × MCPServer)) (results : List ScanResult)
    (scan_time : Option String) : Summary :=
  { total_servers := servers.length
    total_tools := results.length
    critical := results.countP (fun r => decide (r.risk_level = RiskLevel.CRITICAL))
    high := results.countP (fun r => decide (r.risk_level = RiskLevel.HIGH))
    medium := results.countP (fun r => decide (r.risk_level = RiskLevel.MEDIUM))
    low := results.countP (fun r => decide (r.risk_level = RiskLevel.LOW))
    safe := results.countP (fun r => decide (r.risk_level = RiskLevel.SAFE))
    scan_time := scan_time }

/-- Python `set.add` on a set modelled as a duplicate-free list. -/
def pySetAdd (s : List String) (x : String) : List String :=
  if x ∈ s then s else s ++ [x]

/-- One iteration of the result loop in `MCPScanner.print_recommendations`:
add the server to the CRITICAL set if this result's level is CRITICAL, else
to the HIGH set if it is HIGH. -/
def recStep (sets : List String × List String) (r : ScanResult) :
    List String × List String :=
  if r.risk_level = RiskLevel.CRITICAL then (pySetAdd sets.1 r.server_name, sets.2)
  else if r.risk_level = RiskLevel.HIGH then (sets.1, pySetAdd sets.2 r.server_name)
  else sets

/-- The CRITICAL and HIGH server-name sets collected by
`MCPScanner.print_recommendations`: one pass over the results. -/
def recommendationSets (results : List ScanResult) : List String × List String :=
  results.foldl recStep ([], [])

/-- The CLI `main` flow after argument parsing, parametrized by the outcome
of `load_config` (`none` models a load failure, `some servers` a successful
load of the `mcpServers` mapping): load failure returns 1, scan
failure-to-proceed returns 1, otherwise the exit code is derived from the
summary counts. -/
def mainExitCode (loaded : Option (List (String × MCPServer))) : Nat :=
  match loaded with
  | none => 1
  | some servers =>
    match scan servers [] with
    | (false, _, _) => 1
    | (true, results, _) =>
      let summary := get_summary servers results none
      if summary.critical > 0 then 2
      else if summary.high > 0 then 1
      else 0

/-! ## Export document model (`MCPScanner.export_json`)

The produced document is modelled as a JSON value tree (the dictionary the
source passes to `json.dump`; serializing the tree to text and parsing it
back is the standard library's lossless round trip and is out of scope).
`json.dump(..., default=str)` turns the non-JSON values into strings:
`Severity` members print as `"Severity.<NAME>"` and the summary's datetime
as its string form, here modelled as an opaque timestamp string. -/

inductive Json where
  | null : Json
  | str : String → Json
  | num : Nat → Json
  | arr : List Json → Json
  | obj : List (String × Json) → Json

/-- Python `str()` of a `Severity` member, as produced by `default=str`. -/
def severityStr : Severity → String
  | Severity.CRITICAL => "Severity.CRITICAL"
  | Severity.HIGH => "Severity.HIGH"
  | Severity.MEDIUM => "Severity.MEDIUM"
  | Severity.LOW => "Severity.LOW"
  | Severity.INFO => "Severity.INFO"

/-- Recover a `Severity` member from its exported string form. -/
def parseSeverity (s : String) : Option Severity :=
  if s = "Severity.CRITICAL" then some Severity.CRITICAL
  else if s = "Severity.HIGH" then some Severity.HIGH
  else if s = "Severity.MEDIUM" then some Severity.MEDIUM
  else if s = "Severity.LOW" then some Severity.LOW
  else if s = "Severity.INFO" then some Severity.INFO
  else none

/-- The risk-level string stored in `ScanResult.risk_level`. -/
def riskLevelStr : RiskLevel → String
  | RiskLevel.SAFE => "SAFE"
  | RiskLevel.INFO => "INFO"
  | RiskLevel.LOW => "LOW"
  | RiskLevel.MEDIUM => "MEDIUM"
  | RiskLevel.HIGH => "HIGH"
  | RiskLevel.CRITICAL => "CRITICAL"

/-- Recover a risk level from its exported string form. -/
def parseRiskLevel (s : String) : Option RiskLevel :=
  if s = "SAFE" then some RiskLevel.SAFE
  else if s = "INFO" then some RiskLevel.INFO
  else if s = "LOW" then some RiskLevel.LOW
  else if s = "MEDIUM" then some RiskLevel.MEDIUM
  else if s = "HIGH" then some RiskLevel.HIGH
  else if s = "CRITICAL" then some RiskLevel.CRITICAL
  else none

/-- Optional string as a JSON value (`None` serializes to `null`). -/
def optStrJson : Option String → Json
  | none => Json.null
  | some s => Json.str s

/-- One vulnerability record as exported. -/
def encodeVuln (v : Vulnerability) : Json :=
  Json.obj [
    ("rule", Json.str v.rule),
    ("severity", Json.str (severityStr v.severity)),
    ("description", Json.str v.description),
    ("evidence", Json.arr (v.evidence.map (fun e => Json.str (String.mk e)))),
    ("recommendation", Json.str v.recommendation)]

/-- One per-tool entry as exported. -/
def encodeResult (r : ScanResult) : Json :=
  Json.obj [
    ("server", Json.str r.server_name),
    ("tool", Json.str r.tool_name),
    ("risk_level", Json.str (riskLevelStr r.risk_level)),
    ("risk_score", Json.num r.risk_score),
    ("vulnerabilities", Json.arr (r.vulnerabilities.map encodeVuln))]

/-- The summary object as exported. -/
def encodeSummary (s : Summary) : Json :=
  Json.obj [
    ("total_servers", Json.num s.total_servers),
    ("total_tools", Json.num s.total_tools),
    ("critical", Json.num s.critical),
    ("high", Json.num s.high),
    ("medium", Json.num s.medium),
    ("low", Json.num s.low),
    ("safe", Json.num s.safe),
    ("scan_time", optStrJson s.scan_time)]

/-- The state a scanner instance holds when exporting. -/
structure ScannerState where
  config_path : String
  servers : List (String × MCPServer)
  results : List ScanResult
  scan_time : Option String

/-- `MCPScanner.export_json`: the full document passed to `json.dump`. -/
def export_json (st : ScannerState) : Json :=
  Json.obj [
    ("scan_time", optStrJson st.scan_time),
    ("config_file", Json.str st.config_path),
    ("summary", encodeSummary (get_summary st.servers st.results st.scan_time)),
    ("results", Json.arr (st.results.map encodeResult))]

/-- Field lookup in a JSON object. -/
def jLookup : List (String × Json) → String → Option Json
  | [], _ => none
  | (k, v) :: rest, key => if k = key then some v else jLookup rest key

/-- Read a JSON string. -/
def asStr : Json → Option String
  | Json.str s => some s
  | _ => none

/-- Read a JSON number. -/
def asNum : Json → Option Nat
  | Json.num n => some n
  | _ => none

/-- Read a JSON string-or-null as an optional string. -/
def asOptStr : Json → Option (Option String)
  | Json.null => some none
  | Json.str s => some (some s)
  | _ => none

/-- Decode each element of a list, failing when any element fails. -/
def optMap (f : α → Option β) : List α → Option (List β)
  | [] => some []
  | x :: xs =>
    match f x, optMap f xs with
    | some y, some ys => some (y :: ys)
    | _, _ => none

/-- Reimport of one vulnerability record. -/
def decodeVuln : Json → Option Vulnerability
  | Json.obj fields => do
    let rule ← (jLookup fields "rule").bind asStr
    let sev ← ((jLookup fields "severity").bind asStr).bind parseSeverity
    let descr ← (jLookup fields "description").bind asStr
    let evJson ← jLookup fields "evidence"
    let ev ← match evJson with
      | Json.arr xs => optMap (fun j => (asStr j).map String.toList) xs
      | _ => none
    let rec1 ← (jLookup fields "recommendation").bind asStr
    some { rule := rule, severity := sev, description := descr,
           evidence := ev, recommendation := rec1 }
  | _ => none

/-- One reimported per-tool entry (the description text itself is not part
of the export format). -/
structure ExportEntry where
  server : String
  tool : String
  risk_level : RiskLevel
  risk_score : Nat
  vulnerabilities : List Vulnerability
deriving DecidableEq

/-- Reimport of one per-tool entry. -/
def decodeResult : Json → Option ExportEntry
  | Json.obj fields => do
    let server ← (jLookup fields "server").bind asStr
    let tool ← (jLookup fields "tool").bind asStr
    let lvl ← ((jLookup fields "risk_level").bind asStr).bind parseRiskLevel
    let score ← (jLookup fields "risk_score").bind asNum
    let vulns ← match jLookup fields "vulnerabilities" with
      | some (Json.arr xs) => optMap decodeVuln xs
      | _ => none
    some { server := server, tool := tool, risk_level := lvl,
           risk_score := score, vulnerabilities := vulns }
  | _ => none

/-- Reimport of the summary object. -/
def decodeSummary : Json → Option Summary
  | Json.obj fields => do
    let ts ← (jLookup fields "total_servers").bind asNum
    let tt ← (jLookup fields "total_tools").bind asNum
    let c ← (jLookup fields "critical").bind asNum
    let h ← (jLookup fields "high").bind asNum
    let m ← (jLookup fields "medium").bind asNum
    let l ← (jLookup fields "low").bind asNum
    let s ← (jLookup fields "safe").bind asNum
    let st ← (jLookup fields "scan_time").bind asOptStr
    some { total_servers := ts, total_tools := tt, critical := c, high := h,
           medium := m, low := l, safe := s, scan_time := st }
  | _ => none

/-- The whole reimported document. -/
structure ExportView where
  scan_time : Option String
  config_file : String
  summary : Summary
  results : List ExportEntry
deriving DecidableEq

/-- Reimport of the whole document. -/
def decodeExport : Json → Option ExportView
  | Json.obj fields => do
    let st ← (jLookup fields "scan_time").bind asOptStr
    let cf ← (jLookup fields "config_file").bind asStr
    let summary ← (jLookup fields "summary").bind decodeSummary
    let results ← match jLookup fields "results" with
      | some (Json.arr xs) => optMap decodeResult xs
      | _ => none
    some { scan_time := st, config_file := cf, summary := summary,
           results := results }
  | _ => none

/-- The export-format view of a `ScanResult`. -/
def entryOf (r : ScanResult) : ExportEntry :=
  { server := r.server_name, tool := r.tool_name, risk_level := r.risk_level,
    risk_score := r.risk_score, vulnerabilities := r.vulnerabilities }

/-! ## Basic lemmas about `add_vulnerability` -/

/-- The pure risk-level update performed by the if/elif chain of
`add_vulnerability`. -/
def updateLevel (lvl : RiskLevel) (sev : Severity) : RiskLevel :=
  if sev = Severity.CRITICAL then RiskLevel.CRITICAL
  else if sev = Severity.HIGH ∧ lvl ≠ RiskLevel.CRITICAL then RiskLevel.HIGH
  else if sev = Severity.MEDIUM ∧ lvl ∉ [RiskLevel.CRITICAL, RiskLevel.HIGH] then
    RiskLevel.MEDIUM
  else if sev = Severity.LOW ∧ lvl = RiskLevel.SAFE then RiskLevel.LOW
  else lvl

theorem add_vuln_vulnerabilities (r : ScanResult) (n : String) (sev : Severity)
    (d : String) (ev : List (List Char)) (rc : String) :
    (r.add_vulnerability n sev d ev rc).vulnerabilities =
      r.vulnerabilities ++
        [{ rule := n, severity := sev, description := d, evidence := ev,
           recommendation := rc }] := by
  rcases r with ⟨_, _, _, _, _, lv⟩
  cases sev <;> cases lv <;> rfl

theorem add_vuln_risk_score (r : ScanResult) (n : String) (sev : Severity)
    (d : String) (ev : List (List Char)) (rc : String) :
    (r.add_vulnerability n sev d ev rc).risk_score =
      r.risk_score + get_severity_score sev := by
  rcases r with ⟨_, _, _, _, _, lv⟩
  cases sev <;> cases lv <;> rfl

theorem add_vuln_risk_level (r : ScanResult) (n : String) (sev : Severity)
    (d : String) (ev : List (List Char)) (rc : String) :
    (r.add_vulnerability n sev d ev rc).risk_level = updateLevel r.risk_level sev := by
  rcases r with ⟨_, _, _, _, _, lv⟩
  cases sev <;> cases lv <;> rfl

theorem add_vuln_names (r : ScanResult) (n : String) (sev : Severity)
    (d : String) (ev : List (List Char)) (rc : String) :
    (r.add_vulnerability n sev d ev rc).server_name = r.server_name ∧
    (r.add_vulnerability n sev d ev rc).tool_name = r.tool_name := by
  rcases r with ⟨_, _, _, _, _, lv⟩
  cases sev <;> cases lv <;> exact ⟨rfl, rfl⟩

theorem updateLevel_mono (lvl : RiskLevel) (sev : Severity) :
    levelRank lvl ≤ levelRank (updateLevel lvl sev) := by
  cases lvl <;> cases sev <;> decide

theorem updateLevel_ne_INFO (lvl : RiskLevel) (sev : Severity)
    (h : lvl ≠ RiskLevel.INFO) : updateLevel lvl sev ≠ RiskLevel.INFO := by
  revert h; cases lvl <;> cases sev <;> decide

theorem updateLevel_eq_max (lvl : RiskLevel) (sev : Severity)
    (hs : sev ≠ Severity.INFO) (hl : lvl ≠ RiskLevel.INFO) :
    updateLevel lvl sev =
      if levelRank lvl < levelRank (sevToLevel sev) then sevToLevel sev else lvl := by
  revert hs hl; cases lvl <;> cases sev <;> decide

/-! ## Lemmas about `applyAdds` -/

/-- The vulnerability record built from one `add_vulnerability` call. -/
def vulnOfInput (a : VulnInput) : Vulnerability :=
  { rule := a.rule, severity := a.severity, description := a.description,
    evidence := a.evidence, recommendation := a.recommendation }

theorem applyAdds_nil (r : ScanResult) : applyAdds r [] = r := rfl

theorem applyAdds_cons (r : ScanResult) (a : VulnInput) (adds : List VulnInput) :
    applyAdds r (a :: adds) =
      applyAdds
        (r.add_vulnerability a.rule a.severity a.description a.evidence
          a.recommendation) adds := rfl

theorem applyAdds_vulnerabilities (adds : List VulnInput) :
    ∀ r : ScanResult,
      (applyAdds r adds).vulnerabilities =
        r.vulnerabilities ++ adds.map vulnOfInput := by
  induction adds with
  | nil => intro r; simp [applyAdds_nil]
  | cons a more ih =>
    intro r
    rw [applyAdds_cons, ih, add_vuln_vulnerabilities]
    simp [vulnOfInput]

theorem applyAdds_risk_score (adds : List VulnInput) :
    ∀ r : ScanResult,
      (applyAdds r adds).risk_score =
        r.risk_score + (adds.map (fun a => get_severity_score a.severity)).sum := by
  induction adds with
  | nil => intro r; simp [applyAdds_nil]
  | cons a more ih =>
    intro r
    rw [applyAdds_cons, ih, add_vuln_risk_score]
    simp; omega

theorem applyAdds_risk_level (adds : List VulnInput) :
    ∀ r : ScanResult,
      (applyAdds r adds).risk_level =
        adds.foldl (fun lvl a => updateLevel lvl a.severity) r.risk_level := by
  induction adds with
  | nil => intro r; simp [applyAdds_nil]
  | cons a more ih =>
    intro r
    rw [applyAdds_cons, ih, add_vuln_risk_level]
    rfl

theorem foldl_updateLevel_ne_INFO (adds : List VulnInput) :
    ∀ lvl : RiskLevel, lvl ≠ RiskLevel.INFO →
      adds.foldl (fun l a => updateLevel l a.severity) lvl ≠ RiskLevel.INFO := by
  induction adds with
  | nil => intro lvl h; simpa using h
  | cons a more ih =>
    intro lvl h
    exact ih _ (updateLevel_ne_INFO _ _ h)

/-! ## Claim C1 -/

/-- C1 counterexample: the claim demands that a vulnerability's severity
raise the level exactly when it strictly outranks the current one under
CRITICAL > HIGH > MEDIUM > LOW > INFO > SAFE.  Adding an INFO-severity
vulnerability to a fresh (SAFE) result leaves the level at SAFE, although
INFO strictly outranks SAFE under that order. -/
theorem C1_counterexample :
    ((ScanResult.init "srv" "tool" []).add_vulnerability "r" Severity.INFO "d"
        [] "rec").risk_level = RiskLevel.SAFE ∧
    levelRank RiskLevel.SAFE < levelRank (sevToLevel Severity.INFO) ∧
    sevToLevel Severity.INFO ≠ RiskLevel.SAFE := by
  refine ⟨?_, by decide, by decide⟩
  rw [add_vuln_risk_level]
  decide

/-- C1 (amended): the risk level starts at SAFE; each `add_vulnerability`
raises it to the vulnerability's severity exactly when that severity
strictly outranks the current level AND the severity is not INFO — an
INFO-severity vulnerability never changes the level (and the level itself is
never INFO); the level never decreases; and a result with zero
vulnerabilities has level SAFE with `is_safe()` true. -/
theorem C1_risk_level_upgrade_walk :
    (∀ (s t : String) (d : List Char),
      (ScanResult.init s t d).risk_level = RiskLevel.SAFE ∧
      (ScanResult.init s t d).is_safe = true) ∧
    (∀ (r : ScanResult) (n : String) (sev : Severity) (d : String)
        (ev : List (List Char)) (rc : String),
      levelRank r.risk_level ≤
        levelRank ((r.add_vulnerability n sev d ev rc).risk_level)) ∧
    (∀ (r : ScanResult) (n : String) (sev : Severity) (d : String)
        (ev : List (List Char)) (rc : String),
      sev ≠ Severity.INFO → r.risk_level ≠ RiskLevel.INFO →
      (r.add_vulnerability n sev d ev rc).risk_level =
        if levelRank r.risk_level < levelRank (sevToLevel sev) then sevToLevel sev
        else r.risk_level) ∧
    (∀ (r : ScanResult) (n : String) (d : String) (ev : List (List Char))
        (rc : String),
      (r.add_vulnerability n Severity.INFO d ev rc).risk_level = r.risk_level) ∧
    (∀ (s t : String) (d : List Char) (adds : List VulnInput),
      (applyAdds (ScanResult.init s t d) adds).risk_level ≠ RiskLevel.INFO) ∧
    (∀ (s t : String) (d : List Char) (adds : List VulnInput),
      (applyAdds (ScanResult.init s t d) adds).vulnerabilities = [] →
      (applyAdds (ScanResult.init s t d) adds).risk_level = RiskLevel.SAFE ∧
      (applyAdds (ScanResult.init s t d) adds).is_safe = true) := by
  refine ⟨fun s t d => ⟨rfl, rfl⟩, ?_, ?_, ?_, ?_, ?_⟩
  · intro r n sev d ev rc
    rw [add_vuln_risk_level]
    exact updateLevel_mono _ _
  · intro r n sev d ev rc hs hl
    rw [add_vuln_risk_level]
    exact updateLevel_eq_max _ _ hs hl
  · intro r n d ev rc
    rw [add_vuln_risk_level]
    cases hr : r.risk_level <;> decide
  · intro s t d adds
    rw [applyAdds_risk_level]
    exact foldl_updateLevel_ne_INFO adds _ (by simp [ScanResult.init])
  · intro s t d adds h
    have hlen := applyAdds_vulnerabilities adds (ScanResult.init s t d)
    rw [h] at hlen
    have : adds.map vulnOfInput = [] := by
      simpa [ScanResult.init] using hlen.symm
    have hadds : adds = [] := by
      cases adds with
      | nil => rfl
      | cons a more => simp at this
    subst hadds
    exact ⟨rfl, rfl⟩

/-- C1 witness: a LOW vulnerability on a fresh result raises the level to
LOW (it strictly outranks SAFE), and the zero-vulnerability state is SAFE
and safe. -/
theorem C1_witness :
    ((ScanResult.init "srv" "tool" []).add_vulnerability "r" Severity.LOW "d"
        [] "rec").risk_level = RiskLevel.LOW ∧
    (applyAdds (ScanResult.init "srv" "tool" []) []).risk_level =
      RiskLevel.SAFE := by
  constructor
  · have h := C1_risk_level_upgrade_walk.2.2.1 (ScanResult.init "srv" "tool" [])
      "r" Severity.LOW "d" [] "rec" (by decide) (by decide)
    rw [h]
    decide
  · exact (C1_risk_level_upgrade_walk.2.2.2.2.2 "srv" "tool" [] [] rfl).1

/-! ## Claim C2 -/

/-- C2: `risk_score` is the sum of the fixed severity weights
(CRITICAL=100, HIGH=75, MEDIUM=50, LOW=25, INFO=10) over the vulnerability
list, not the max and not deduplicated: three CRITICAL matches score 300,
two HIGH score 150, one CRITICAL plus one LOW scores 125. -/
theorem C2_risk_score_weighted_sum :
    (∀ (s t : String) (d : List Char) (adds : List VulnInput),
      (applyAdds (ScanResult.init s t d) adds).risk_score =
        ((applyAdds (ScanResult.init s t d) adds).vulnerabilities.map
          (fun v => get_severity_score v.severity)).sum) ∧
    get_severity_score Severity.CRITICAL = 100 ∧
    get_severity_score Severity.HIGH = 75 ∧
    get_severity_score Severity.MEDIUM = 50 ∧
    get_severity_score Severity.LOW = 25 ∧
    get_severity_score Severity.INFO = 10 ∧
    (applyAdds (ScanResult.init "s" "t" [])
      (List.replicate 3 ⟨"r", Severity.CRITICAL, "d", [], "x"⟩)).risk_score = 300 ∧
    (applyAdds (ScanResult.init "s" "t" [])
      (List.replicate 2 ⟨"r", Severity.HIGH, "d", [], "x"⟩)).risk_score = 150 ∧
    (applyAdds (ScanResult.init "s" "t" [])
      [⟨"r", Severity.CRITICAL, "d", [], "x"⟩,
       ⟨"r2", Severity.LOW, "d", [], "x"⟩]).risk_score = 125 := by
  refine ⟨?_, rfl, rfl, rfl, rfl, rfl, ?_, ?_, ?_⟩
  · intro s t d adds
    rw [applyAdds_risk_score, applyAdds_vulnerabilities]
    simp only [ScanResult.init, List.nil_append, List.map_map, Nat.zero_add]
    rfl
  · rw [applyAdds_risk_score]; rfl
  · rw [applyAdds_risk_score]; rfl
  · rw [applyAdds_risk_score]; rfl

/-! ## Claim C3 -/

/-- `core` occurs as a contiguous block inside `text`. -/
def OccursIn (core text : List Char) : Prop :=
  ∃ s t, text = s ++ core ++ t

theorem occursIn_trans {a b c : List Char} (h1 : OccursIn a b) (h2 : OccursIn b c) :
    OccursIn a c := by
  obtain ⟨s1, t1, rfl⟩ := h1
  obtain ⟨s2, t2, rfl⟩ := h2
  exact ⟨s2 ++ s1, t1 ++ t2, by simp⟩

theorem occursIn_dropTake (text : List Char) (a b : Nat) :
    OccursIn ((text.drop a).take b) text := by
  refine ⟨text.take a, (text.drop a).drop b, ?_⟩
  rw [List.append_assoc, List.take_append_drop, List.take_append_drop]

theorem pyStrip_occursIn (l : List Char) : OccursIn (pyStrip l) l := by
  have h1 : OccursIn (l.dropWhile isPySpace) l :=
    ⟨l.takeWhile isPySpace, [], by
      rw [List.append_nil, List.takeWhile_append_dropWhile]⟩
  set m := l.dropWhile isPySpace with hm
  have h2 : OccursIn (pyStrip l) m := by
    refine ⟨[], (m.reverse.takeWhile isPySpace).reverse, ?_⟩
    rw [List.nil_append]
    have := List.takeWhile_append_dropWhile (p := isPySpace) (l := m.reverse)
    calc m = m.reverse.reverse := (List.reverse_reverse m).symm
      _ = (m.reverse.takeWhile isPySpace ++ m.reverse.dropWhile isPySpace).reverse := by
          rw [this]
      _ = (m.reverse.dropWhile isPySpace).reverse ++
            (m.reverse.takeWhile isPySpace).reverse := by
          rw [List.reverse_append]
      _ = pyStrip l ++ (m.reverse.takeWhile isPySpace).reverse := rfl
  exact occursIn_trans h2 h1

theorem occursIn_mem {core text : List Char} (h : OccursIn core text) :
    ∀ c ∈ core, c ∈ text := by
  obtain ⟨s, t, rfl⟩ := h
  intro c hc
  simp [hc]

theorem mkSnippet_core (text : List Char) (s e : Nat) :
    ∃ core, mkSnippet text s e = ("...".toList) ++ core ++ ("...".toList) ∧
      OccursIn core text := by
  refine ⟨pyStrip ((text.drop (s - 30)).take (min text.length (e + 30) - (s - 30))),
    rfl, ?_⟩
  exact occursIn_trans (pyStrip_occursIn _) (occursIn_dropTake _ _ _)

theorem finditerAux_succ (mf fuel : Nat) (pat : List RE) (text : List Char)
    (pos : Nat) :
    finditerAux mf (fuel + 1) pat text pos =
      match matchSeq mf pat text with
      | some n =>
        (pos, pos + n) ::
          (if n = 0 then
            match text with
            | [] => []
            | _ :: ts => finditerAux mf fuel pat ts (pos + 1)
          else finditerAux mf fuel pat (text.drop n) (pos + n))
      | none =>
        match text with
        | [] => []
        | _ :: ts => finditerAux mf fuel pat ts (pos + 1) := rfl

theorem finditerAux_start_ge (mf : Nat) (pat : List RE) :
    ∀ (fuel : Nat) (text : List Char) (pos : Nat) (m : Nat × Nat),
      m ∈ finditerAux mf fuel pat text pos → pos ≤ m.1 := by
  intro fuel
  induction fuel with
  | zero => intro text pos m h; simp [finditerAux] at h
  | succ fuel ih =>
    intro text pos m h
    rw [finditerAux_succ] at h
    cases hm : matchSeq mf pat text with
    | some n =>
      simp only [hm] at h
      rcases List.mem_cons.mp h with h | h
      · subst h; exact Nat.le_refl _
      · by_cases hn : n = 0
        · subst hn
          simp only [if_pos rfl] at h
          cases text with
          | nil => simp at h
          | cons c ts => exact Nat.le_of_succ_le (ih ts (pos + 1) m h)
        · rw [if_neg hn] at h
          have := ih (text.drop n) (pos + n) m h
          omega
    | none =>
      simp only [hm] at h
      cases text with
      | nil => simp at h
      | cons c ts => exact Nat.le_of_succ_le (ih ts (pos + 1) m h)

theorem finditerAux_chain (mf : Nat) (pat : List RE) :
    ∀ (fuel : Nat) (text : List Char) (pos : Nat),
      List.Chain' (fun a b : Nat × Nat => a.1 < b.1)
        (finditerAux mf fuel pat text pos) := by
  intro fuel
  induction fuel with
  | zero => intro text pos; simp [finditerAux]
  | succ fuel ih =>
    intro text pos
    rw [finditerAux_succ]
    cases hm : matchSeq mf pat text with
    | some n =>
      simp only [hm]
      by_cases hn : n = 0
      · subst hn
        simp only [if_pos rfl]
        cases text with
        | nil => simp
        | cons c ts =>
          apply List.chain'_cons'.mpr
          refine ⟨?_, ih ts (pos + 1)⟩
          intro b hb
          have hbmem : b ∈ finditerAux mf fuel pat ts (pos + 1) :=
            List.mem_of_mem_head? hb
          have := finditerAux_start_ge mf pat fuel ts (pos + 1) b hbmem
          omega
      · rw [if_neg hn]
        apply List.chain'_cons'.mpr
        refine ⟨?_, ih (text.drop n) (pos + n)⟩
        intro b hb
        have hbmem : b ∈ finditerAux mf fuel pat (text.drop n) (pos + n) :=
          List.mem_of_mem_head? hb
        have := finditerAux_start_ge mf pat fuel (text.drop n) (pos + n) b hbmem
        omega
    | none =>
      simp only [hm]
      cases text with
      | nil => simp
      | cons c ts => exact ih ts (pos + 1)

/-- The concrete text of the C3 counterexample: the literal word "encoded",
then 64 dashes, then the literal word "base64". -/
def c3text : List Char :=
  ("encoded".toList) ++ List.replicate 64 '-' ++ ("base64".toList)

/-- C3 counterexample: on `c3text` the catalogue rule OBFUSCATION matches
the pattern `base64` at span (71, 77) and the pattern `encoded` at span
(0, 7); its evidence list puts the snippet of the later match (start 71)
before the snippet of the earlier match (start 0) — grouping is by pattern,
not left-to-right — and the first snippet, which contains the added dots,
is not a substring of the input text. -/
theorem C3_counterexample :
    rule_OBFUSCATION ∈ DETECTION_RULES ∧
    finditer [L "base64"] c3text = [(71, 77)] ∧
    finditer [L "encoded"] c3text = [(0, 7)] ∧
    (ruleCheck rule_OBFUSCATION c3text).2 =
      [mkSnippet c3text 71 77, mkSnippet c3text 0 7] ∧
    mkSnippet c3text 71 77 ≠ mkSnippet c3text 0 7 ∧
    ¬ OccursIn (mkSnippet c3text 71 77) c3text := by
  refine ⟨by simp [DETECTION_RULES], by decide, by decide, by decide, by decide, ?_⟩
  intro h
  have hdot : '.' ∈ mkSnippet c3text 71 77 := by decide
  have hmem : '.' ∈ c3text := occursIn_mem h '.' hdot
  have : ('.' ∈ c3text) = False := by decide
  rw [this] at hmem
  exact hmem

/-- C3 (amended): every evidence snippet produced by a rule's `check` is the
trimmed context window wrapped in three dots on each side, so its core (the
part between the dots) is a contiguous substring of the input text; the
evidence list is grouped by pattern in pattern-list order, and within one
pattern the underlying matches are in strictly increasing start position;
across different patterns of the same rule the snippets need not be in
left-to-right order of match start. -/
theorem C3_evidence_snippets :
    ∀ (rule : Rule) (text : List Char),
      ((ruleCheck rule text).2 =
        (rule.patterns.map (fun p =>
          (finditer p text).map (fun m => mkSnippet text m.1 m.2))).flatten) ∧
      (∀ ev ∈ (ruleCheck rule text).2, ∃ core,
        ev = ("...".toList) ++ core ++ ("...".toList) ∧ OccursIn core text) ∧
      (∀ p ∈ rule.patterns,
        List.Chain' (fun a b : Nat × Nat => a.1 < b.1) (finditer p text)) := by
  intro rule text
  refine ⟨rfl, ?_, ?_⟩
  · intro ev hev
    have : ev ∈ (rule.patterns.map (fun p =>
        (finditer p text).map (fun m => mkSnippet text m.1 m.2))).flatten := hev
    rw [List.mem_flatten] at this
    obtain ⟨l, hl, hevl⟩ := this
    rw [List.mem_map] at hl
    obtain ⟨p, hp, rfl⟩ := hl
    rw [List.mem_map] at hevl
    obtain ⟨m, hmem, rfl⟩ := hevl
    exact mkSnippet_core text m.1 m.2
  · intro p hp
    exact finditerAux_chain (fuelFor p text) p _ text 0

/-- C3 witness: the snippet the OBFUSCATION rule produces for the `encoded`
match of `c3text` decomposes into dots around a contiguous substring of the
text. -/
theorem C3_witness :
    ∃ core, mkSnippet c3text 0 7 = ("...".toList) ++ core ++ ("...".toList) ∧
      OccursIn core c3text := by
  have h := (C3_evidence_snippets rule_OBFUSCATION c3text).2.1
    (mkSnippet c3text 0 7) (by decide)
  exact h

/-! ## Claim C4 -/

theorem pySetAdd_mem (s : List String) (x y : String) :
    y ∈ pySetAdd s x ↔ y ∈ s ∨ y = x := by
  unfold pySetAdd
  by_cases h : x ∈ s
  · rw [if_pos h]
    constructor
    · exact Or.inl
    · rintro (hy | rfl)
      · exact hy
      · exact h
  · rw [if_neg h]
    simp

theorem recSets_foldl_mem (results : List ScanResult) :
    ∀ (acc : List String × List String) (x : String),
      (x ∈ (results.foldl recStep acc).1 ↔
        x ∈ acc.1 ∨ ∃ r ∈ results,
          r.server_name = x ∧ r.risk_level = RiskLevel.CRITICAL) ∧
      (x ∈ (results.foldl recStep acc).2 ↔
        x ∈ acc.2 ∨ ∃ r ∈ results,
          r.server_name = x ∧ r.risk_level = RiskLevel.HIGH) := by
  induction results with
  | nil => intro acc x; simp
  | cons r rs ih =>
    intro acc x
    rw [List.foldl_cons]
    have h := ih (recStep acc r) x
    by_cases hc : r.risk_level = RiskLevel.CRITICAL
    · have hstep : recStep acc r = (pySetAdd acc.1 r.server_name, acc.2) := by
        unfold recStep; rw [if_pos hc]
      rw [hstep] at h ⊢
      constructor
      · rw [h.1]
        simp only [pySetAdd_mem, List.exists_mem_cons_iff, hc]
        constructor
        · rintro ((hy | rfl) | hy)
          · exact Or.inl hy
          · exact Or.inr (Or.inl ⟨rfl, trivial⟩)
          · exact Or.inr (Or.inr hy)
        · rintro (hy | ⟨rfl, _⟩ | hy)
          · exact Or.inl (Or.inl hy)
          · exact Or.inl (Or.inr rfl)
          · exact Or.inr hy
      · rw [h.2]
        simp only [List.exists_mem_cons_iff, hc]
        constructor
        · rintro (hy | hy)
          · exact Or.inl hy
          · exact Or.inr (Or.inr hy)
        · rintro (hy | ⟨_, habs⟩ | hy)
          · exact Or.inl hy
          · exact absurd habs (by decide)
          · exact Or.inr hy
    · by_cases hh : r.risk_level = RiskLevel.HIGH
      · have hstep : recStep acc r = (acc.1, pySetAdd acc.2 r.server_name) := by
          unfold recStep; rw [if_neg hc, if_pos hh]
        rw [hstep] at h ⊢
        constructor
        · rw [h.1]
          simp only [List.exists_mem_cons_iff, hh]
          constructor
          · rintro (hy | hy)
            · exact Or.inl hy
            · exact Or.inr (Or.inr hy)
          · rintro (hy | ⟨_, habs⟩ | hy)
            · exact Or.inl hy
            · exact absurd habs (by decide)
            · exact Or.inr hy
        · rw [h.2]
          simp only [pySetAdd_mem, List.exists_mem_cons_iff, hh]
          constructor
          · rintro ((hy | rfl) | hy)
            · exact Or.inl hy
            · exact Or.inr (Or.inl ⟨rfl, trivial⟩)
            · exact Or.inr (Or.inr hy)
          · rintro (hy | ⟨rfl, _⟩ | hy)
            · exact Or.inl (Or.inl hy)
            · exact Or.inl (Or.inr rfl)
            · exact Or.inr hy
      · have hstep : recStep acc r = acc := by
          unfold recStep; rw [if_neg hc, if_neg hh]
        rw [hstep] at h ⊢
        constructor
        · rw [h.1]
          simp only [List.exists_mem_cons_iff]
          constructor
          · rintro (hy | hy)
            · exact Or.inl hy
            · exact Or.inr (Or.inr hy)
          · rintro (hy | ⟨_, habs⟩ | hy)
            · exact Or.inl hy
            · exact absurd habs hc
            · exact Or.inr hy
        · rw [h.2]
          simp only [List.exists_mem_cons_iff]
          constructor
          · rintro (hy | hy)
            · exact Or.inl hy
            · exact Or.inr (Or.inr hy)
          · rintro (hy | ⟨_, habs⟩ | hy)
            · exact Or.inl hy
            · exact absurd habs hh
            · exact Or.inr hy

/-- C4 counterexample: a server with one CRITICAL tool and one (exactly)
HIGH tool is collected into BOTH recommendation sets — the CRITICAL and
HIGH sets are not disjoint, because the `elif` of the source is evaluated
per result, not per server. -/
theorem C4_counterexample :
    ((ScanResult.init "srv" "t1" []).add_vulnerability "R1" Severity.CRITICAL
        "d" [] "x").risk_level = RiskLevel.CRITICAL ∧
    ((ScanResult.init "srv" "t2" []).add_vulnerability "R2" Severity.HIGH
        "d" [] "x").risk_level = RiskLevel.HIGH ∧
    "srv" ∈ (recommendationSets
      [(ScanResult.init "srv" "t1" []).add_vulnerability "R1" Severity.CRITICAL
          "d" [] "x",
       (ScanResult.init "srv" "t2" []).add_vulnerability "R2" Severity.HIGH
          "d" [] "x"]).1 ∧
    "srv" ∈ (recommendationSets
      [(ScanResult.init "srv" "t1" []).add_vulnerability "R1" Severity.CRITICAL
          "d" [] "x",
       (ScanResult.init "srv" "t2" []).add_vulnerability "R2" Severity.HIGH
          "d" [] "x"]).2 := by
  decide

/-- C4 (amended): a server is in the CRITICAL recommendation set exactly
when one of its tools has risk level CRITICAL, and in the HIGH set exactly
when one of its tools has risk level exactly HIGH.  A CRITICAL result never
itself adds its server to the HIGH set (the per-result `elif`), but a server
with one CRITICAL tool and a different HIGH tool appears in both sets, so
the two sets are not disjoint in general. -/
theorem C4_recommendation_sets (results : List ScanResult) (x : String) :
    (x ∈ (recommendationSets results).1 ↔
      ∃ r ∈ results, r.server_name = x ∧ r.risk_level = RiskLevel.CRITICAL) ∧
    (x ∈ (recommendationSets results).2 ↔
      ∃ r ∈ results, r.server_name = x ∧ r.risk_level = RiskLevel.HIGH) := by
  have h := recSets_foldl_mem results ([], []) x
  unfold recommendationSets
  constructor
  · rw [h.1]; simp
  · rw [h.2]; simp

/-! ## Claim C5 -/

/-- The vulnerability record `scan_tool` adds for a matched catalogue
rule. -/
def vulnOfRule (rule : Rule) (text : List Char) : Vulnerability :=
  { rule := rule.name, severity := rule.severity, description := rule.description,
    evidence := (ruleCheck rule text).2, recommendation := rule.recommendation }

/-- The vulnerabilities added by the catalogue-rule loop of `scan_tool`, in
catalogue order. -/
def ruleFindings (text : List Char) : List Vulnerability :=
  DETECTION_RULES.filterMap (fun rule =>
    if (ruleCheck rule text).1 then some (vulnOfRule rule text) else none)

theorem foldl_ruleStep_vulns (d : List Char) :
    ∀ (rules : List Rule) (r : ScanResult),
      (rules.foldl (ruleStep d) r).vulnerabilities =
        r.vulnerabilities ++ rules.filterMap (fun rule =>
          if (ruleCheck rule d).1 then some (vulnOfRule rule d) else none) := by
  intro rules
  induction rules with
  | nil => intro r; simp
  | cons rule more ih =>
    intro r
    rw [List.foldl_cons, ih]
    unfold ruleStep
    by_cases hm : (ruleCheck rule d).1
    · rw [if_pos hm, add_vuln_vulnerabilities]
      simp [hm, vulnOfRule]
    · rw [if_neg hm]
      simp [hm]

theorem foldl_ruleStep_id (d : List Char) :
    ∀ (rules : List Rule), (∀ rule ∈ rules, (ruleCheck rule d).1 = false) →
      ∀ r : ScanResult, rules.foldl (ruleStep d) r = r := by
  intro rules
  induction rules with
  | nil => intro _ r; rfl
  | cons rule more ih =>
    intro h r
    rw [List.foldl_cons]
    have h1 : (ruleCheck rule d).1 = false := h rule (List.mem_cons_self _ _)
    have hstep : ruleStep d r rule = r := by
      unfold ruleStep; rw [h1]; simp
    rw [hstep]
    exact ih (fun q hq => h q (List.mem_cons_of_mem _ hq)) r

theorem ruleStep_ne_INFO (d : List Char) (r : ScanResult) (rule : Rule)
    (h : r.risk_level ≠ RiskLevel.INFO) :
    (ruleStep d r rule).risk_level ≠ RiskLevel.INFO := by
  unfold ruleStep
  by_cases hm : (ruleCheck rule d).1
  · rw [if_pos hm, add_vuln_risk_level]
    exact updateLevel_ne_INFO _ _ h
  · rw [if_neg hm]
    exact h

theorem foldl_ruleStep_ne_INFO (d : List Char) :
    ∀ (rules : List Rule) (r : ScanResult), r.risk_level ≠ RiskLevel.INFO →
      (rules.foldl (ruleStep d) r).risk_level ≠ RiskLevel.INFO := by
  intro rules
  induction rules with
  | nil => intro r h; exact h
  | cons rule more ih =>
    intro r h
    rw [List.foldl_cons]
    exact ih _ (ruleStep_ne_INFO d r rule h)

/-- Shared characterization of the vulnerability list `scan_tool`
produces: the catalogue findings in catalogue order, then the length
finding exactly when the description exceeds 1000 characters. -/
theorem scan_tool_vulns (server tool : String) (d : List Char) :
    (scan_tool server tool d).vulnerabilities =
      ruleFindings d ++
        (if 1000 < d.length then [lengthVuln d.length] else []) := by
  unfold scan_tool
  by_cases hlen : 1000 < d.length
  · have hb : (check_description_length d).1 = true := by
      simp [check_description_length, hlen]
    rw [if_pos hb, add_vuln_vulnerabilities, foldl_ruleStep_vulns]
    simp [ScanResult.init, ruleFindings, if_pos hlen, lengthVuln,
      check_description_length, unusualLengthDescription, lengthEvidence]
  · have hb : ¬((check_description_length d).1 = true) := by
      simp [check_description_length, hlen]
    rw [if_neg hb, foldl_ruleStep_vulns]
    simp [ScanResult.init, ruleFindings, if_neg hlen]

theorem scan_tool_ne_INFO (server tool : String) (d : List Char) :
    (scan_tool server tool d).risk_level ≠ RiskLevel.INFO := by
  unfold scan_tool
  have h1 : (DETECTION_RULES.foldl (ruleStep d)
      (ScanResult.init server tool d)).risk_level ≠ RiskLevel.INFO :=
    foldl_ruleStep_ne_INFO d DETECTION_RULES _ (by simp [ScanResult.init])
  by_cases hlen : (check_description_length d).1
  · rw [if_pos hlen, add_vuln_risk_level]
    exact updateLevel_ne_INFO _ _ h1
  · rw [if_neg hlen]
    exact h1

/-- C5: `check_description_length` reports `is_long` exactly when the text
is longer than 1000 characters, together with that length; the scanner then
appends (after all catalogue-rule findings, exactly once per tool) a single
LOW UNUSUAL_COMPLEXITY vulnerability whose evidence is the single string
"Description length: ... chars (normal is < 1000)"; a description longer
than 1000 characters matching no catalogue rule yields exactly that one LOW
vulnerability and risk level LOW. -/
theorem C5_length_heuristic :
    ∀ (server tool : String) (d : List Char),
      ((check_description_length d).1 = true ↔ 1000 < d.length) ∧
      (check_description_length d).2 = d.length ∧
      ((scan_tool server tool d).vulnerabilities =
        ruleFindings d ++
          (if 1000 < d.length then [lengthVuln d.length] else [])) ∧
      ((∀ rule ∈ DETECTION_RULES, (ruleCheck rule d).1 = false) →
        1000 < d.length →
        (scan_tool server tool d).vulnerabilities = [lengthVuln d.length] ∧
        (scan_tool server tool d).risk_level = RiskLevel.LOW) := by
  intro server tool d
  refine ⟨by simp [check_description_length], rfl, scan_tool_vulns server tool d, ?_⟩
  · intro hnone hlen
    simp only [scan_tool]
    rw [foldl_ruleStep_id d DETECTION_RULES hnone]
    have hb : (check_description_length d).1 = true := by
      simp [check_description_length, hlen]
    rw [if_pos hb]
    constructor
    · rw [add_vuln_vulnerabilities]
      simp [ScanResult.init, lengthVuln, check_description_length,
        unusualLengthDescription, lengthEvidence]
    · rw [add_vuln_risk_level]
      have : (ScanResult.init server tool d).risk_level = RiskLevel.SAFE := rfl
      rw [this]
      decide

set_option maxRecDepth 100000 in
set_option maxHeartbeats 2000000 in
/-- C5 witness: a 1200-character description of spaces triggers no
catalogue rule, so its scan carries exactly the one LOW UNUSUAL_COMPLEXITY
finding and risk level LOW. -/
theorem C5_witness :
    (scan_tool "srv" "tool" (List.replicate 1200 ' ')).vulnerabilities =
      [lengthVuln 1200] ∧
    (scan_tool "srv" "tool" (List.replicate 1200 ' ')).risk_level =
      RiskLevel.LOW := by
  have h := (C5_length_heuristic "srv" "tool" (List.replicate 1200 ' ')).2.2.2
    (by decide) (by decide)
  have hlen : (List.replicate 1200 ' ').length = 1200 := by simp
  exact ⟨by rw [h.1, hlen], h.2⟩

/-! ## Claim C6 -/

theorem countP_level_partition (results : List ScanResult) :
    (∀ r ∈ results, r.risk_level ≠ RiskLevel.INFO) →
    results.countP (fun r => decide (r.risk_level = RiskLevel.CRITICAL)) +
    results.countP (fun r => decide (r.risk_level = RiskLevel.HIGH)) +
    results.countP (fun r => decide (r.risk_level = RiskLevel.MEDIUM)) +
    results.countP (fun r => decide (r.risk_level = RiskLevel.LOW)) +
    results.countP (fun r => decide (r.risk_level = RiskLevel.SAFE)) =
      results.length := by
  induction results with
  | nil => intro _; simp
  | cons r rs ih =>
    intro h
    have hr : r.risk_level ≠ RiskLevel.INFO := h r (List.mem_cons_self _ _)
    have hrs := ih (fun q hq => h q (List.mem_cons_of_mem _ hq))
    simp only [List.countP_cons, List.length_cons]
    cases hl : r.risk_level <;> simp [hl] at hr ⊢ <;> omega

theorem scanToolResults_ne_INFO (servers : List (String × MCPServer)) :
    ∀ r ∈ scanToolResults servers, r.risk_level ≠ RiskLevel.INFO := by
  intro r hr
  unfold scanToolResults at hr
  rw [List.mem_flatten] at hr
  obtain ⟨l, hl, hrl⟩ := hr
  rw [List.mem_map] at hl
  obtain ⟨s, hs, rfl⟩ := hl
  rw [List.mem_map] at hrl
  obtain ⟨t, ht, rfl⟩ := hrl
  exact scan_tool_ne_INFO _ _ _

theorem scanToolResults_length (servers : List (String × MCPServer)) :
    (scanToolResults servers).length =
      (servers.map (fun s => (s.2.tools.getD []).length)).sum := by
  unfold scanToolResults
  rw [List.length_flatten, List.map_map]
  refine congrArg List.sum (List.map_congr_left ?_)
  intro s hs
  simp [Function.comp]

/-- C6: for the results a scan produces, the per-level summary counts
partition the result set exactly — critical + high + medium + low + safe
equals the total tool count, which is the number of `ScanResult`s and equals
the sum of the servers' tool-list lengths (so a server with zero tools
counts toward `total_servers` but not `total_tools`) — and no tool ever has
risk level INFO. -/
theorem C6_summary_partition (servers : List (String × MCPServer))
    (ts : Option String) :
    (get_summary servers (scanToolResults servers) ts).critical +
    (get_summary servers (scanToolResults servers) ts).high +
    (get_summary servers (scanToolResults servers) ts).medium +
    (get_summary servers (scanToolResults servers) ts).low +
    (get_summary servers (scanToolResults servers) ts).safe =
      (get_summary servers (scanToolResults servers) ts).total_tools ∧
    (get_summary servers (scanToolResults servers) ts).total_tools =
      (scanToolResults servers).length ∧
    (get_summary servers (scanToolResults servers) ts).total_servers =
      servers.length ∧
    (get_summary servers (scanToolResults servers) ts).total_tools =
      (servers.map (fun s => (s.2.tools.getD []).length)).sum ∧
    ∀ r ∈ scanToolResults servers, r.risk_level ≠ RiskLevel.INFO := by
  refine ⟨?_, rfl, rfl, scanToolResults_length servers, scanToolResults_ne_INFO servers⟩
  exact countP_level_partition _ (scanToolResults_ne_INFO servers)

/-- The two-server configuration of the C6 witness: one server with a
single CRITICAL-triggering tool, one server with zero tools. -/
def c6servers : List (String × MCPServer) :=
  [("a", ⟨some [⟨some "t", some ("silently".toList)⟩]⟩),
   ("empty", ⟨some []⟩)]

/-- C6 witness: on a concrete two-server configuration (one of its servers
has zero tools) the counts partition, the tool total is 1 against a server
total of 2, and the scanned tool's level is not INFO. -/
theorem C6_witness :
    (get_summary c6servers (scanToolResults c6servers) none).critical +
    (get_summary c6servers (scanToolResults c6servers) none).high +
    (get_summary c6servers (scanToolResults c6servers) none).medium +
    (get_summary c6servers (scanToolResults c6servers) none).low +
    (get_summary c6servers (scanToolResults c6servers) none).safe =
      (get_summary c6servers (scanToolResults c6servers) none).total_tools ∧
    (get_summary c6servers (scanToolResults c6servers) none).total_tools = 1 ∧
    (get_summary c6servers (scanToolResults c6servers) none).total_servers = 2 ∧
    (scan_tool "a" "t" ("silently".toList)).risk_level ≠ RiskLevel.INFO := by
  have h := C6_summary_partition c6servers none
  refine ⟨h.1, by decide, rfl, ?_⟩
  exact h.2.2.2.2 (scan_tool "a" "t" ("silently".toList)) (by decide)

/-! ## Claim C7 -/

theorem mainExitCode_some (servers : List (String × MCPServer))
    (h : servers ≠ []) :
    mainExitCode (some servers) =
      (if 0 < (get_summary servers (scanToolResults servers) none).critical
       then 2
       else if 0 < (get_summary servers (scanToolResults servers) none).high
       then 1
       else 0) := by
  cases servers with
  | nil => exact absurd rfl h
  | cons s ss => rfl

/-- C7: the CLI returns exit code 1 on a load failure, 1 when the scan
refuses to proceed (zero servers), and otherwise 2 exactly when the summary
counts at least one CRITICAL tool, 1 exactly when there is no CRITICAL but
at least one HIGH tool, and 0 when there is neither. -/
theorem C7_exit_codes :
    mainExitCode none = 1 ∧
    mainExitCode (some []) = 1 ∧
    ∀ servers : List (String × MCPServer), servers ≠ [] →
      ((mainExitCode (some servers) = 2 ↔
        0 < (get_summary servers (scanToolResults servers) none).critical) ∧
      ((get_summary servers (scanToolResults servers) none).critical = 0 →
        (mainExitCode (some servers) = 1 ↔
          0 < (get_summary servers (scanToolResults servers) none).high)) ∧
      ((get_summary servers (scanToolResults servers) none).critical = 0 →
        (get_summary servers (scanToolResults servers) none).high = 0 →
        mainExitCode (some servers) = 0)) := by
  refine ⟨rfl, rfl, ?_⟩
  intro servers hne
  rw [mainExitCode_some servers hne]
  constructor
  · by_cases hc : 0 < (get_summary servers (scanToolResults servers) none).critical
    · rw [if_pos hc]
      simp [hc]
    · rw [if_neg hc]
      constructor
      · intro habs
        by_cases hh : 0 < (get_summary servers (scanToolResults servers) none).high
        · rw [if_pos hh] at habs; exact absurd habs (by decide)
        · rw [if_neg hh] at habs; exact absurd habs (by decide)
      · intro hcrit; exact absurd hcrit hc
  constructor
  · intro hc
    have hc0 : ¬ 0 < (get_summary servers (scanToolResults servers) none).critical := by
      omega
    rw [if_neg hc0]
    by_cases hh : 0 < (get_summary servers (scanToolResults servers) none).high
    · rw [if_pos hh]; simp [hh]
    · rw [if_neg hh]
      constructor
      · intro habs; exact absurd habs (by decide)
      · intro hhigh; exact absurd hhigh hh
  · intro hc hh
    have hc0 : ¬ 0 < (get_summary servers (scanToolResults servers) none).critical := by
      omega
    have hh0 : ¬ 0 < (get_summary servers (scanToolResults servers) none).high := by
      omega
    rw [if_neg hc0, if_neg hh0]

/-- The single-server configuration of the C7 witness: its only tool's
description contains "silently", a CRITICAL trigger. -/
def c7servers : List (String × MCPServer) :=
  [("evil", ⟨some [⟨some "t", some ("silently".toList)⟩]⟩)]

/-- C7 witness: a configuration with one CRITICAL finding exits with
code 2. -/
theorem C7_witness : mainExitCode (some c7servers) = 2 := by
  have h := (C7_exit_codes.2.2 c7servers (by simp [c7servers])).1
  exact h.mpr (by decide)

/-! ## Claim C8 -/

/-- C8: `scan` proceeds (returns success) exactly when at least one server
is present; with zero servers it reports "No servers found in
configuration" and returns failure-to-proceed, leaving the results
sequence unchanged (it is modelled as a total function — no exception is
involved). -/
theorem C8_scan_zero_servers :
    ∀ (servers : List (String × MCPServer)) (results : List ScanResult),
      ((scan servers results).1 = true ↔ servers ≠ []) ∧
      (servers = [] →
        (scan servers results).2.1 = results ∧
        (scan servers results).2.2 = ["No servers found in configuration"]) := by
  intro servers results
  cases servers with
  | nil =>
    refine ⟨?_, fun _ => ⟨rfl, rfl⟩⟩
    constructor
    · intro habs; simp [scan] at habs
    · intro habs; exact absurd rfl habs
  | cons s ss =>
    refine ⟨?_, fun habs => absurd habs (by simp)⟩
    constructor
    · intro _; simp
    · intro _; rfl

/-- C8 witness: scanning an empty server mapping fails to proceed, leaves
the (empty) results unchanged and emits the report message. -/
theorem C8_witness :
    (scan ([] : List (String × MCPServer)) ([] : List ScanResult)).1 = false ∧
    (scan ([] : List (String × MCPServer)) ([] : List ScanResult)).2.1 = [] ∧
    (scan ([] : List (String × MCPServer)) ([] : List ScanResult)).2.2 =
      ["No servers found in configuration"] := by
  have h := C8_scan_zero_servers [] []
  refine ⟨?_, (h.2 rfl).1, (h.2 rfl).2⟩
  cases hb : (scan ([] : List (String × MCPServer)) ([] : List ScanResult)).1
  · rfl
  · exact absurd (h.1.mp hb) (fun hne => hne rfl)

/-! ## Claim C9 -/

theorem parseSeverity_severityStr (s : Severity) :
    parseSeverity (severityStr s) = some s := by
  cases s <;> rfl

theorem parseRiskLevel_riskLevelStr (l : RiskLevel) :
    parseRiskLevel (riskLevelStr l) = some l := by
  cases l <;> rfl

theorem asOptStr_optStrJson (s : Option String) :
    asOptStr (optStrJson s) = some s := by
  cases s <;> rfl

theorem asStr_str (s : String) : asStr (Json.str s) = some s := rfl

theorem asNum_num (n : Nat) : asNum (Json.num n) = some n := rfl

theorem optMap_evidence (ev : List (List Char)) :
    optMap (fun j => (asStr j).map String.toList)
      (ev.map (fun e => Json.str (String.mk e))) = some ev := by
  induction ev with
  | nil => rfl
  | cons e es ih => simp [optMap, asStr_str, ih, String.toList]

theorem decodeVuln_encodeVuln (v : Vulnerability) :
    decodeVuln (encodeVuln v) = some v := by
  rcases v with ⟨rule, sev, descr, ev, rc⟩
  simp [decodeVuln, encodeVuln, jLookup, asStr_str, parseSeverity_severityStr,
    optMap_evidence]

theorem optMap_encodeVuln (vs : List Vulnerability) :
    optMap decodeVuln (vs.map encodeVuln) = some vs := by
  induction vs with
  | nil => rfl
  | cons v more ih => simp [optMap, ih, decodeVuln_encodeVuln]

theorem decodeResult_encodeResult (r : ScanResult) :
    decodeResult (encodeResult r) = some (entryOf r) := by
  rcases r with ⟨sn, tn, d, vs, sc, lv⟩
  simp [decodeResult, encodeResult, jLookup, asStr_str, asNum_num, entryOf,
    parseRiskLevel_riskLevelStr, optMap_encodeVuln]

theorem optMap_encodeResult (rs : List ScanResult) :
    optMap decodeResult (rs.map encodeResult) = some (rs.map entryOf) := by
  induction rs with
  | nil => rfl
  | cons r more ih => simp [optMap, ih, decodeResult_encodeResult]

theorem decodeSummary_encodeSummary (s : Summary) :
    decodeSummary (encodeSummary s) = some s := by
  rcases s with ⟨ts, tt, c, h, m, l, sf, st⟩
  simp [decodeSummary, encodeSummary, jLookup, asNum_num, asOptStr_optStrJson]

/-- C9: reimporting the exported document recovers the scan time, the
source path, the exact summary (so all counts: total servers, total tools,
per-level counts) and, for every tool entry, the server name, tool name,
risk level, risk score and the full vulnerability records — the export is
lossless for every field of the export format. -/
theorem C9_export_roundtrip (st : ScannerState) :
    decodeExport (export_json st) =
      some { scan_time := st.scan_time
             config_file := st.config_path
             summary := get_summary st.servers st.results st.scan_time
             results := st.results.map entryOf } := by
  simp [decodeExport, export_json, jLookup, asStr_str, asOptStr_optStrJson,
    decodeSummary_encodeSummary, optMap_encodeResult]

/-! ## Claim C10 -/

theorem filterMap_no_unusual (d : List Char) :
    ∀ rules : List Rule,
      (∀ rule ∈ rules,
        rule.name ≠ "UNUSUAL_COMPLEXITY" ∨ (ruleCheck rule d).1 = false) →
      (rules.filterMap (fun rule =>
          if (ruleCheck rule d).1 then some (vulnOfRule rule d) else none)).filter
        (fun v => v.rule == "UNUSUAL_COMPLEXITY") = [] := by
  intro rules
  induction rules with
  | nil => intro _; rfl
  | cons rule more ih =>
    intro h
    have hmore := ih (fun q hq => h q (List.mem_cons_of_mem _ hq))
    rw [List.filterMap_cons]
    by_cases hc : (ruleCheck rule d).1
    · rw [if_pos hc]
      rcases h rule (List.mem_cons_self _ _) with hname | hfalse
      · rw [List.filter_cons]
        have : ((vulnOfRule rule d).rule == "UNUSUAL_COMPLEXITY") = false := by
          simp [vulnOfRule]
          exact hname
        rw [this]
        simpa using hmore
      · rw [hc] at hfalse; exact absurd hfalse (by decide)
    · rw [if_neg hc]
      exact hmore

theorem ruleFindings_no_unusual (d : List Char) :
    (ruleFindings d).filter (fun v => v.rule == "UNUSUAL_COMPLEXITY") = [] := by
  apply filterMap_no_unusual
  intro rule hrule
  have : rule = rule_TOOL_POISONING ∨ rule = rule_USER_DECEPTION ∨
      rule = rule_EMAIL_IN_DESCRIPTION ∨ rule = rule_UNAUTHORIZED_DATA_COLLECTION ∨
      rule = rule_MANDATORY_BEHAVIOR ∨ rule = rule_SUSPICIOUS_KEYWORDS ∨
      rule = rule_OBFUSCATION ∨ rule = rule_UNUSUAL_COMPLEXITY := by
    simpa [DETECTION_RULES] using hrule
  rcases this with rfl | rfl | rfl | rfl | rfl | rfl | rfl | rfl
  · exact Or.inl (by decide)
  · exact Or.inl (by decide)
  · exact Or.inl (by decide)
  · exact Or.inl (by decide)
  · exact Or.inl (by decide)
  · exact Or.inl (by decide)
  · exact Or.inl (by decide)
  · exact Or.inr rfl

/-- C10: the catalogue entry UNUSUAL_COMPLEXITY has an empty pattern list,
so its `check` returns `(false, [])` on every input and the generic rule
loop never adds it; every UNUSUAL_COMPLEXITY vulnerability of any scanned
tool is the single record synthesized by the length heuristic — present
exactly when the description exceeds 1000 characters, hence at most one per
tool. -/
theorem C10_unusual_complexity_inert :
    rule_UNUSUAL_COMPLEXITY.patterns = [] ∧
    rule_UNUSUAL_COMPLEXITY ∈ DETECTION_RULES ∧
    (∀ text : List Char, ruleCheck rule_UNUSUAL_COMPLEXITY text = (false, [])) ∧
    (∀ (server tool : String) (d : List Char),
      (scan_tool server tool d).vulnerabilities.filter
          (fun v => v.rule == "UNUSUAL_COMPLEXITY") =
        (if 1000 < d.length then [lengthVuln d.length] else [])) ∧
    (∀ (server tool : String) (d : List Char),
      ((scan_tool server tool d).vulnerabilities.filter
          (fun v => v.rule == "UNUSUAL_COMPLEXITY")).length ≤ 1) := by
  have hfilter : ∀ (server tool : String) (d : List Char),
      (scan_tool server tool d).vulnerabilities.filter
          (fun v => v.rule == "UNUSUAL_COMPLEXITY") =
        (if 1000 < d.length then [lengthVuln d.length] else []) := by
    intro server tool d
    rw [scan_tool_vulns, List.filter_append, ruleFindings_no_unusual]
    by_cases hlen : 1000 < d.length
    · rw [if_pos hlen]
      simp [lengthVuln]
    · rw [if_neg hlen]
      rfl
  refine ⟨rfl, by simp [DETECTION_RULES], fun _ => rfl, hfilter, ?_⟩
  intro server tool d
  rw [hfilter]
  by_cases hlen : 1000 < d.length
  · rw [if_pos hlen]; exact Nat.le_refl 1
  · rw [if_neg hlen]; exact Nat.zero_le 1

end MCPScan
